import Mathlib

/-!
Shallow embedding of the cemetery-fundraising signup calendar core
(`src/lib/types.ts` utility half, `src/components/CalendarGrid.tsx` handlers,
`src/components/VolunteerSignupModal.tsx` add-volunteer validation, and the
event-detail modal's lock-and-save flow), together with theorems settling the
claims about it.

Modelling conventions:
- JavaScript strings are Lean `String`s; `s.replace(/\D/g, '')` becomes
  filtering the character list by `Char.isDigit`; `trim` / `toLowerCase`
  become the character-list level `jsTrim` / `jsToLower` below (the library
  versions do not evaluate inside the kernel).
- JavaScript `Date` values are integer timestamps (`Int` for navigation
  bounds comparison, `Nat` for `createdAt`).
- A JavaScript object used as a string-keyed record
  (`Record<string, DayState>`, `Record<string, VolunteerEntry[]>`) is a
  function `String → Option α`: `none` models a missing key, which is
  observably different from a key bound to an empty array, exactly as in
  the source. `obj[k] || []` becomes `(m k).getD []`, and the spread update
  `{...m, [k]: v}` becomes the pointwise function update.
-/

namespace Cemetery

/-- JavaScript `s.trim()`: drop whitespace from both ends (character-list
level, so that it evaluates in the kernel). -/
def jsTrim (s : String) : String :=
  ⟨((s.toList.dropWhile Char.isWhitespace).reverse.dropWhile Char.isWhitespace).reverse⟩

/-- JavaScript `s.toLowerCase()` (character-list level). -/
def jsToLower (s : String) : String :=
  ⟨s.toList.map Char.toLower⟩

/-- Model of `value.replace(/\D/g, '')` — keep only digit characters. -/
def stripNonDigits (s : String) : String :=
  ⟨s.toList.filter Char.isDigit⟩

/-- JavaScript `s.slice(a, b)` on strings (with `0 ≤ a ≤ b`). -/
def jsSlice (s : String) (a b : Nat) : String :=
  ⟨(s.toList.drop a).take (b - a)⟩

/-- JavaScript `s.slice(a)` on strings (with `0 ≤ a`). -/
def jsSliceFrom (s : String) (a : Nat) : String :=
  ⟨s.toList.drop a⟩

/-- Function `formatPhone` from `src/lib/types.ts`: strip non-digits; if exactly 10
digits remain, render `(XXX) XXX-XXXX`; otherwise return the input as-is. -/
def formatPhone (phone : String) : String :=
  let digits := stripNonDigits phone
  if digits.toList.length = 10 then
    "(" ++ jsSlice digits 0 3 ++ ") " ++ jsSlice digits 3 6 ++ "-" ++ jsSliceFrom digits 6
  else
    phone

/-- Function `cleanPhone` from `src/lib/types.ts`: digits-only string if exactly 10
digits remain, else the empty string. -/
def cleanPhone (phone : String) : String :=
  let digits := stripNonDigits phone
  if digits.toList.length = 10 then digits else ""

/-- Function `maskPhoneInput` from `src/lib/types.ts`: progressively rebuild the
`(XXX) XXX-XXXX` mask from the digits of the input. -/
def maskPhoneInput (value : String) : String :=
  let digits := stripNonDigits value
  let f0 : String := ""
  let f1 := if digits.toList.length > 0 then f0 ++ "(" ++ jsSlice digits 0 3 else f0
  let f2 := if digits.toList.length ≥ 3 then f1 ++ ") " ++ jsSlice digits 3 6 else f1
  let f3 := if digits.toList.length ≥ 6 then f2 ++ "-" ++ jsSlice digits 6 10 else f2
  f3

/-- Function `isValidPhone` from `src/lib/types.ts`: exactly 10 digits after
stripping non-digits. -/
def isValidPhone (phone : String) : Bool :=
  (stripNonDigits phone).toList.length = 10

/-- Structure `VolunteerEntry` from `src/lib/types.ts`. -/
structure VolunteerEntry where
  id : String
  name : String
  phone : String
deriving DecidableEq, Repr

/-- Structure `RoleDefinition` from `src/lib/types.ts` (`minVolunteers` is a
non-negative integer per the data model). -/
structure RoleDefinition where
  id : String
  label : String
  isDefault : Bool
  minVolunteers : Nat
deriving DecidableEq, Repr

/-- Structure `Event` from `src/lib/types.ts`; `roles` is the string-keyed record
`roleId -> VolunteerEntry[]`, with `none` for a missing key. -/
structure Event where
  id : String
  details : String
  locked : Bool
  roles : String → Option (List VolunteerEntry)
  createdAt : Nat

/-- Structure `DayState` from `src/lib/types.ts`. -/
structure DayState where
  events : List Event

/-- The `daysData` record of `CalendarGrid`: ISO date string → `DayState`,
with `none` for a date never referenced. -/
def Days : Type := String → Option DayState

/-- Structure `CoverageStatus` from `src/lib/types.ts`. -/
structure CoverageStatus where
  current : Nat
  minimum : Nat
  isMet : Bool
deriving DecidableEq, Repr

/-- Structure `NavigationBounds` from `src/lib/types.ts`; dates as integer
timestamps. -/
structure NavigationBounds where
  minDate : Int
  maxDate : Int
deriving DecidableEq, Repr

/-- Function `isDuplicateVolunteer` from `src/lib/types.ts`: some existing entry has
the same trimmed lower-cased name and its stored phone equals the cleaned
candidate phone. -/
def isDuplicateVolunteer (volunteers : List VolunteerEntry) (name phone : String) : Bool :=
  let cleanedPhone := cleanPhone phone
  volunteers.any fun v =>
    jsToLower (jsTrim v.name) == jsToLower (jsTrim name) && v.phone == cleanedPhone

/-- Function `getCoverageStatus` from `src/lib/types.ts`: `event.roles[role.id] || []`
counted against `role.minVolunteers`. -/
def getCoverageStatus (event : Event) (role : RoleDefinition) : CoverageStatus :=
  let volunteers := (event.roles role.id).getD []
  let current := volunteers.length
  let minimum := role.minVolunteers
  let isMet := decide (current ≥ minimum)
  ⟨current, minimum, isMet⟩

/-- Function `canNavigateToWeek` from `src/lib/types.ts`:
`!isBefore(weekStart, minDate) && !isAfter(weekStart, maxDate)` on
timestamps. -/
def canNavigateToWeek (weekStart : Int) (bounds : NavigationBounds) : Bool :=
  !(decide (weekStart < bounds.minDate)) && !(decide (weekStart > bounds.maxDate))

/-- Function `createEmptyEvent` from `src/lib/types.ts`; the generated id and the
creation timestamp are passed in explicitly. -/
def createEmptyEvent (freshId : String) (now : Nat) : Event :=
  { id := freshId, details := "", locked := false, roles := fun _ => none, createdAt := now }

/-- Function `createEmptyDayState` from `src/lib/types.ts`. -/
def createEmptyDayState : DayState :=
  { events := [] }

/-- Function `handleSaveNewEvent` from `src/components/CalendarGrid.tsx`: spread
`createEmptyEvent()` with the supplied `details` and `locked: true`, then
append it to the (possibly freshly materialized) day's event list. -/
def handleSaveNewEvent (days : Days) (addEventDate : String) (details : String)
    (freshId : String) (now : Nat) : Days :=
  let newEvent : Event := { createEmptyEvent freshId now with details := details, locked := true }
  let dayState := (days addEventDate).getD createEmptyDayState
  fun k =>
    if k = addEventDate then some { dayState with events := dayState.events ++ [newEvent] }
    else days k

/-- The arrow function mapped over `dayState.events` in `handleUpdateEvent`
(`src/components/CalendarGrid.tsx`): `e.id === eventId ? { ...e, details } : e`. -/
def updateDetailsEvent (eventId details : String) (e : Event) : Event :=
  if e.id = eventId then { e with details := details } else e

/-- Function `handleUpdateEvent` from `src/components/CalendarGrid.tsx`: overwrite
the `details` of the event with the given id on the selected day; no-op when
the day has no state. -/
def handleUpdateEvent (days : Days) (selectedEventDate : String) (eventId : String)
    (details : String) : Days :=
  match days selectedEventDate with
  | none => days
  | some dayState =>
      fun k =>
        if k = selectedEventDate then
          some { dayState with events := dayState.events.map (updateDetailsEvent eventId details) }
        else days k

/-- The arrow function mapped over `dayState.events` in `handleToggleLock`
(`src/components/CalendarGrid.tsx`): `e.id === eventId ? { ...e, locked: !e.locked } : e`. -/
def toggleLockEvent (eventId : String) (e : Event) : Event :=
  if e.id = eventId then { e with locked := !e.locked } else e

/-- Function `handleToggleLock` from `src/components/CalendarGrid.tsx`: negate the
`locked` flag of the event with the given id on the selected day. -/
def handleToggleLock (days : Days) (selectedEventDate : String) (eventId : String) : Days :=
  match days selectedEventDate with
  | none => days
  | some dayState =>
      fun k =>
        if k = selectedEventDate then
          some { dayState with events := dayState.events.map (toggleLockEvent eventId) }
        else days k

/-- The arrow function mapped over `dayState.events` in `handleAddVolunteer`
(`src/components/CalendarGrid.tsx`): spread `e.roles` with
`[roleId]: [...(e.roles[roleId] || []), volunteer]` on the matching event. -/
def addVolunteerToEvent (eventId roleId : String) (volunteer : VolunteerEntry) (e : Event) :
    Event :=
  if e.id = eventId then
    { e with roles := fun r =>
        if r = roleId then some ((e.roles roleId).getD [] ++ [volunteer])
        else e.roles r }
  else e

/-- Function `handleAddVolunteer` from `src/components/CalendarGrid.tsx`: append the
volunteer to `e.roles[roleId] || []` for the event with the given id. -/
def handleAddVolunteer (days : Days) (selectedEventDate : String) (eventId roleId : String)
    (volunteer : VolunteerEntry) : Days :=
  match days selectedEventDate with
  | none => days
  | some dayState =>
      fun k =>
        if k = selectedEventDate then
          some { dayState with
                 events := dayState.events.map (addVolunteerToEvent eventId roleId volunteer) }
        else days k

/-- The arrow function mapped over `dayState.events` in `handleRemoveVolunteer`
(`src/components/CalendarGrid.tsx`): spread `e.roles` with
`[roleId]: (e.roles[roleId] || []).filter(v => v.id !== volunteerId)` on the
matching event. -/
def removeVolunteerFromEvent (eventId roleId volunteerId : String) (e : Event) : Event :=
  if e.id = eventId then
    { e with roles := fun r =>
        if r = roleId then
          some (((e.roles roleId).getD []).filter fun v => v.id != volunteerId)
        else e.roles r }
  else e

/-- Function `handleRemoveVolunteer` from `src/components/CalendarGrid.tsx`: filter
the volunteer with the given id out of `e.roles[roleId] || []` for the event
with the given id. -/
def handleRemoveVolunteer (days : Days) (selectedEventDate : String) (eventId roleId : String)
    (volunteerId : String) : Days :=
  match days selectedEventDate with
  | none => days
  | some dayState =>
      fun k =>
        if k = selectedEventDate then
          some { dayState with
                 events :=
                   dayState.events.map (removeVolunteerFromEvent eventId roleId volunteerId) }
        else days k

/-- Result of the volunteer-signup modal's submit handler: the (possibly
updated) days record together with the error message written to the form
state, if any. -/
structure AddOutcome where
  days : Days
  error : Option String

/-- Function `handleAddVolunteer` from `src/components/VolunteerSignupModal.tsx`
composed with the `onAddVolunteer` callback (`CalendarGrid`'s handler):
trim the name; reject empty name, invalid phone, then duplicates against the
`existingVolunteers` passed by the caller (`event.roles[role.id] || []`);
otherwise store a fresh entry with the cleaned phone. -/
def modalAddVolunteer (days : Days) (selectedEventDate : String) (eventId roleId : String)
    (existingVolunteers : List VolunteerEntry) (nameInput phoneInput freshId : String) :
    AddOutcome :=
  let name := jsTrim nameInput
  if name = "" then
    ⟨days, some "Name is required"⟩
  else if !isValidPhone phoneInput then
    ⟨days, some "Please enter a valid 10-digit phone number"⟩
  else if isDuplicateVolunteer existingVolunteers name phoneInput then
    ⟨days, some "You are already signed up for this role"⟩
  else
    ⟨handleAddVolunteer days selectedEventDate eventId roleId
      ⟨freshId, name, cleanPhone phoneInput⟩, none⟩

/-- Function `handleToggleLockClick` from the event-detail modal
(`src/components/RoleRow.tsx` embedded `EventDetailModal`), composed with the
unlock confirmation dialog: on a locked event it only requests confirmation
and, when confirmed, toggles the lock; on an unlocked event with non-empty
trimmed edited details it saves the details and locks. -/
def handleToggleLockClick (days : Days) (selectedEventDate : String) (ev : Event)
    (editedDetails : String) (confirmUnlock : Bool) : Days :=
  if ev.locked then
    if confirmUnlock then handleToggleLock days selectedEventDate ev.id else days
  else
    let trimmedDetails := jsTrim editedDetails
    if trimmedDetails ≠ "" then
      handleToggleLock (handleUpdateEvent days selectedEventDate ev.id trimmedDetails)
        selectedEventDate ev.id
    else days

/-- Function `getDefaultRoles` from `src/lib/types.ts`: the four built-in
roles with their minimum volunteer requirements. -/
def getDefaultRoles : List RoleDefinition :=
  [ ⟨"role-1", "Fundraising appeal coordinator", true, 1⟩,
    ⟨"role-2", "Men's volunteer lead", true, 1⟩,
    ⟨"role-3", "Sisters' volunteer lead", true, 1⟩,
    ⟨"role-4", "Volunteers list", true, 8⟩ ]

/-- Observation of a days record: for each date the list of
`(event.id, event.details)` pairs, in order. -/
def eventDetailsView (days : Days) (k : String) : Option (List (String × String)) :=
  (days k).map fun ds => ds.events.map fun e => (e.id, e.details)

/-- Fixture: a locked event whose `roles` record has no keys at all (the
shape produced by event creation). -/
def lockedEvent : Event :=
  { id := "e1", details := "Jumuah Appeal", locked := true, roles := fun _ => none,
    createdAt := 0 }

/-- Fixture: a days record with `lockedEvent` as the only event of the only
materialized day. -/
def lockedDays : Days :=
  fun k => if k = "2026-02-23" then some { events := [lockedEvent] } else none

/-- Fixture: a volunteer entry as stored after a validated signup. -/
def janeDoe : VolunteerEntry := ⟨"v1", "Jane Doe", "5551234567"⟩

/-- Fixture: a locked event whose `roles` record binds `"role-4"` to a
one-entry volunteer list. -/
def eventWithRole : Event :=
  { id := "e1", details := "Jumuah Appeal", locked := true,
    roles := fun r => if r = "role-4" then some [janeDoe] else none, createdAt := 0 }

/-- Fixture: a days record with `eventWithRole` as the only event of the only
materialized day. -/
def daysWithRole : Days :=
  fun k => if k = "2026-02-23" then some { events := [eventWithRole] } else none

/-- Helper: filtering a `take`/`drop` slice of an all-digit list by
`Char.isDigit` changes nothing. -/
theorem filter_take_drop_of_all (l : List Char) (h : ∀ c ∈ l, c.isDigit = true) (m n : Nat) :
    ((l.drop m).take n).filter Char.isDigit = (l.drop m).take n := by
  apply List.filter_eq_self.mpr
  intro c hc
  exact h c (List.drop_subset _ _ (List.take_subset _ _ hc))

/-- Helper: the three digit segments of the phone mask concatenate to the
first ten characters. -/
theorem segments_eq (l : List Char) :
    l.take 3 ++ ((l.drop 3).take 3 ++ (l.drop 6).take 4) = l.take 10 := by
  rw [show (10 : Nat) = 3 + 7 from rfl, List.take_add,
      show (7 : Nat) = 3 + 4 from rfl, List.take_add, List.drop_drop]

/-- Helper: on an input with at least ten digits, stripping the mask built by
`maskPhoneInput` recovers exactly the first ten digits of the input. -/
theorem mask_strip (s : String) (h : 10 ≤ (stripNonDigits s).toList.length) :
    stripNonDigits (maskPhoneInput s) = jsSlice (stripNonDigits s) 0 10 := by
  have h1 : (stripNonDigits s).toList.length > 0 := by omega
  have h3 : (stripNonDigits s).toList.length ≥ 3 := by omega
  have h6 : (stripNonDigits s).toList.length ≥ 6 := by omega
  unfold maskPhoneInput
  simp only [if_pos h1, if_pos h3, if_pos h6]
  have hall : ∀ c ∈ s.toList.filter Char.isDigit, c.isDigit = true := by
    intro c hc
    exact List.of_mem_filter hc
  show String.mk ((([] ++ ['('] ++ (s.toList.filter Char.isDigit).take 3 ++ [')', ' ']
      ++ ((s.toList.filter Char.isDigit).drop 3).take 3 ++ ['-']
      ++ ((s.toList.filter Char.isDigit).drop 6).take 4)).filter Char.isDigit)
    = String.mk (((s.toList.filter Char.isDigit).drop 0).take 10)
  apply congrArg
  simp only [List.filter_append, List.nil_append, List.drop_zero]
  rw [show (['('] : List Char).filter Char.isDigit = [] from rfl,
      show ([')', ' '] : List Char).filter Char.isDigit = [] from rfl,
      show (['-'] : List Char).filter Char.isDigit = [] from rfl]
  have h0 := filter_take_drop_of_all _ hall 0 3
  rw [List.drop_zero] at h0
  rw [h0, filter_take_drop_of_all _ hall 3 3, filter_take_drop_of_all _ hall 6 4]
  simp only [List.nil_append, List.append_assoc]
  exact segments_eq _

/-- Helper: the per-event removal step is idempotent. -/
theorem removeVolunteerFromEvent_idem (eventId roleId volunteerId : String) (e : Event) :
    removeVolunteerFromEvent eventId roleId volunteerId
        (removeVolunteerFromEvent eventId roleId volunteerId e)
      = removeVolunteerFromEvent eventId roleId volunteerId e := by
  unfold removeVolunteerFromEvent
  by_cases h : e.id = eventId
  · simp only [if_pos h]
    congr 1
    funext r
    by_cases hr : r = roleId
    · subst hr
      simp [List.filter_filter]
    · simp [hr]
  · simp only [if_neg h]

/-- Helper: `handleRemoveVolunteer` applied twice with the same arguments
equals one application. -/
theorem handleRemoveVolunteer_idem (days : Days) (date eventId roleId volunteerId : String) :
    handleRemoveVolunteer (handleRemoveVolunteer days date eventId roleId volunteerId)
        date eventId roleId volunteerId
      = handleRemoveVolunteer days date eventId roleId volunteerId := by
  unfold handleRemoveVolunteer
  cases hd : days date with
  | none => simp [hd]
  | some ds =>
      simp only [hd]
      funext k
      by_cases hk : k = date
      · subst hk
        simp [List.map_map]
        intro e _
        exact removeVolunteerFromEvent_idem _ _ _ _
      · simp [hk]

/-- Helper: removing an id that occurs in no matching event's role list is a
no-op, provided every matching event already binds the role key. -/
theorem handleRemoveVolunteer_absent_noop (days : Days)
    (date eventId roleId volunteerId : String) (ds : DayState) (hd : days date = some ds)
    (habs : ∀ e ∈ ds.events, e.id = eventId →
      ∃ l, e.roles roleId = some l ∧ ∀ v ∈ l, v.id ≠ volunteerId) :
    handleRemoveVolunteer days date eventId roleId volunteerId = days := by
  unfold handleRemoveVolunteer
  simp only [hd]
  funext k
  by_cases hk : k = date
  · subst hk
    rw [if_pos rfl, hd]
    have hmap : ds.events.map (removeVolunteerFromEvent eventId roleId volunteerId)
        = ds.events := by
      conv_rhs => rw [← List.map_id ds.events]
      apply List.map_congr_left
      intro e he
      show removeVolunteerFromEvent eventId roleId volunteerId e = e
      unfold removeVolunteerFromEvent
      by_cases hid : e.id = eventId
      · obtain ⟨l, hl, hvl⟩ := habs e he hid
        rw [if_pos hid]
        have hfil : l.filter (fun v => v.id != volunteerId) = l := by
          apply List.filter_eq_self.mpr
          intro v hv
          simpa using hvl v hv
        have hroles : (fun r => if r = roleId then
            some (((e.roles roleId).getD []).filter fun v => v.id != volunteerId)
            else e.roles r) = e.roles := by
          funext r
          by_cases hr : r = roleId
          · subst hr
            rw [if_pos rfl, hl]
            simp [hfil]
          · rw [if_neg hr]
        rw [hroles]
      · rw [if_neg hid]
    rw [hmap]
  · simp [hk]

/-- Helper: removing a volunteer on a day that was never materialized leaves
the state unchanged. -/
theorem handleRemoveVolunteer_missing_day_noop (days : Days)
    (date eventId roleId volunteerId : String) (hd : days date = none) :
    handleRemoveVolunteer days date eventId roleId volunteerId = days := by
  unfold handleRemoveVolunteer
  simp [hd]

/-- Helper: toggling the lock of an event changes no event's id or details
anywhere in the days record. -/
theorem toggleLock_preserves_details (days : Days) (date eventId : String) (k : String) :
    eventDetailsView (handleToggleLock days date eventId) k = eventDetailsView days k := by
  unfold handleToggleLock eventDetailsView
  cases hd : days date with
  | none => rfl
  | some ds =>
      by_cases hk : k = date
      · subst hk
        simp [hd, List.map_map]
        intro e _
        unfold toggleLockEvent
        by_cases hid : e.id = eventId <;> simp [hid]
      · simp [hd, hk]

/-- C3: `isDuplicateVolunteer` returns `true` exactly when some existing
entry has a trimmed, case-insensitively equal name and a stored phone
identical to the candidate's cleaned (digits-only) phone; in particular the
entry `{name: "Jane Doe", phone: "5551234567"}` matches the candidate
`("jane doe", "(555) 123-4567")`. -/
theorem isDuplicateVolunteer_spec :
    (∀ (volunteers : List VolunteerEntry) (name phone : String),
        isDuplicateVolunteer volunteers name phone = true ↔
          ∃ v ∈ volunteers, jsToLower (jsTrim v.name) = jsToLower (jsTrim name) ∧
            v.phone = cleanPhone phone)
  ∧ isDuplicateVolunteer [janeDoe] "jane doe" "(555) 123-4567" = true := by
  constructor
  · intro volunteers name phone
    simp [isDuplicateVolunteer, List.any_eq_true, Bool.and_eq_true, beq_iff_eq]
  · decide

/-- C4: for every input details string, `handleSaveNewEvent` appends to the
target day a new event with `locked = true`, the supplied details, an empty
roles mapping (and the fresh id and creation time). -/
theorem handleSaveNewEvent_creates_locked_event (days : Days)
    (addEventDate details freshId : String) (now : Nat) :
    ∃ ds : DayState,
      handleSaveNewEvent days addEventDate details freshId now addEventDate = some ds ∧
      ds.events.getLast? = some { id := freshId, details := details, locked := true,
                                  roles := fun _ => none, createdAt := now } := by
  refine ⟨{ events := ((days addEventDate).getD createEmptyDayState).events ++
      [{ createEmptyEvent freshId now with details := details, locked := true }] }, ?_, ?_⟩
  · simp [handleSaveNewEvent]
  · rw [List.getLast?_concat]
    rfl

/-- C5: for every input with at least ten digit characters,
`cleanPhone (maskPhoneInput s)` equals the first ten digits obtained by
stripping all non-digit characters from `s` directly. -/
theorem cleanPhone_maskPhoneInput_roundtrip (s : String)
    (h : 10 ≤ (stripNonDigits s).toList.length) :
    cleanPhone (maskPhoneInput s) = jsSlice (stripNonDigits s) 0 10 := by
  unfold cleanPhone
  rw [mask_strip s h]
  have hlen : (jsSlice (stripNonDigits s) 0 10).toList.length = 10 := by
    show (((stripNonDigits s).toList.drop 0).take (10 - 0)).length = 10
    rw [List.drop_zero, List.length_take]
    omega
  have hlen2 : (jsSlice (stripNonDigits s) 0 10).length = 10 := hlen
  simp [hlen2]

/-- Witness for C5: the round-trip evaluated on a concrete input with more
than ten digits interleaved with letters. -/
theorem cleanPhone_maskPhoneInput_roundtrip_witness :
    cleanPhone (maskPhoneInput "x312y555z0199abc77")
      = jsSlice (stripNonDigits "x312y555z0199abc77") 0 10 :=
  cleanPhone_maskPhoneInput_roundtrip "x312y555z0199abc77" (by decide)

/-- C7: `canNavigateToWeek` is a closed-interval membership test: `true` iff
`minDate ≤ weekStart ≤ maxDate`; both boundary values are navigable (for
well-formed bounds) and anything strictly outside either bound is not. -/
theorem canNavigateToWeek_closed_interval :
    (∀ (w : Int) (b : NavigationBounds),
        canNavigateToWeek w b = true ↔ b.minDate ≤ w ∧ w ≤ b.maxDate)
  ∧ (∀ b : NavigationBounds, b.minDate ≤ b.maxDate →
        canNavigateToWeek b.minDate b = true ∧ canNavigateToWeek b.maxDate b = true)
  ∧ (∀ (w : Int) (b : NavigationBounds), w < b.minDate → canNavigateToWeek w b = false)
  ∧ (∀ (w : Int) (b : NavigationBounds), b.maxDate < w → canNavigateToWeek w b = false) := by
  have hiff : ∀ (w : Int) (b : NavigationBounds),
      canNavigateToWeek w b = true ↔ b.minDate ≤ w ∧ w ≤ b.maxDate := by
    intro w b
    simp [canNavigateToWeek, not_lt]
  refine ⟨hiff, ?_, ?_, ?_⟩
  · intro b h
    exact ⟨(hiff b.minDate b).mpr ⟨le_refl _, h⟩, (hiff b.maxDate b).mpr ⟨h, le_refl _⟩⟩
  · intro w b h
    rw [← Bool.not_eq_true]
    intro hc
    exact absurd ((hiff w b).mp hc).1 (not_le.mpr h)
  · intro w b h
    rw [← Bool.not_eq_true]
    intro hc
    exact absurd ((hiff w b).mp hc).2 (not_le.mpr h)

/-- Witness for C7: both boundaries of the concrete bounds `[3, 9]` are
navigable. -/
theorem canNavigateToWeek_closed_interval_witness :
    canNavigateToWeek (3 : Int) ⟨3, 9⟩ = true ∧ canNavigateToWeek (9 : Int) ⟨3, 9⟩ = true :=
  canNavigateToWeek_closed_interval.2.1 ⟨3, 9⟩ (by decide)

/-- C10: `getCoverageStatus` is total over partial role mappings: when the
event's roles record has no entry for the role's id, it returns
`{current: 0, minimum: role.minVolunteers, isMet: 0 ≥ role.minVolunteers}`. -/
theorem getCoverageStatus_total_on_missing_role (e : Event) (role : RoleDefinition)
    (h : e.roles role.id = none) :
    getCoverageStatus e role = ⟨0, role.minVolunteers, decide (0 ≥ role.minVolunteers)⟩ := by
  simp [getCoverageStatus, h]

/-- Witness for C10: a freshly created locked event (empty roles record)
against the default "Volunteers list" role with minimum 8. -/
theorem getCoverageStatus_total_on_missing_role_witness :
    getCoverageStatus lockedEvent ⟨"role-4", "Volunteers list", true, 8⟩ = ⟨0, 8, false⟩ :=
  (getCoverageStatus_total_on_missing_role lockedEvent ⟨"role-4", "Volunteers list", true, 8⟩
    rfl).trans (by decide)

/-- Counterexample for C1: `handleUpdateEvent`, the cited update-event-details
handler, called directly on a locked event does change its details: the
locked event's details go from "Jumuah Appeal" to "changed". -/
theorem handleUpdateEvent_mutates_locked_details :
    lockedEvent.locked = true ∧
    eventDetailsView lockedDays "2026-02-23" = some [("e1", "Jumuah Appeal")] ∧
    eventDetailsView (handleUpdateEvent lockedDays "2026-02-23" "e1" "changed") "2026-02-23"
      = some [("e1", "changed")] ∧
    ("changed" : String) ≠ "Jumuah Appeal" := by
  refine ⟨rfl, by decide, by decide, by decide⟩

/-- C1 (amended): the only caller of `handleUpdateEvent`, the event-detail
modal's lock-button flow, invokes it only when the displayed event is
unlocked; when the event is locked the flow (with or without the confirmed
unlock) leaves every event's id and details unchanged on every day. -/
theorem locked_details_immutable_via_modal_flow (days : Days) (date : String) (ev : Event)
    (editedDetails : String) (confirmUnlock : Bool) (h : ev.locked = true) (k : String) :
    eventDetailsView (handleToggleLockClick days date ev editedDetails confirmUnlock) k
      = eventDetailsView days k := by
  unfold handleToggleLockClick
  rw [if_pos h]
  by_cases hc : confirmUnlock
  · rw [if_pos hc]
    exact toggleLock_preserves_details days date ev.id k
  · rw [if_neg hc]

/-- Witness for C1 (amended): the modal flow on the concrete locked event
with confirmed unlock leaves the details view unchanged. -/
theorem locked_details_immutable_via_modal_flow_witness :
    eventDetailsView (handleToggleLockClick lockedDays "2026-02-23" lockedEvent "new text" true)
        "2026-02-23"
      = eventDetailsView lockedDays "2026-02-23" :=
  locked_details_immutable_via_modal_flow lockedDays "2026-02-23" lockedEvent "new text" true
    rfl "2026-02-23"

/-- C2: the volunteer-signup modal's submit handler is atomic on error: if
the trimmed name is empty, or the phone does not strip to exactly ten
digits, or the candidate is a duplicate against the target event+role's
existing volunteers, it returns an error message and leaves the days record
completely unchanged. -/
theorem modalAddVolunteer_rejects_atomically (days : Days) (date eventId roleId : String)
    (existingVolunteers : List VolunteerEntry) (nameInput phoneInput freshId : String)
    (h : jsTrim nameInput = "" ∨ isValidPhone phoneInput = false ∨
      isDuplicateVolunteer existingVolunteers (jsTrim nameInput) phoneInput = true) :
    (modalAddVolunteer days date eventId roleId existingVolunteers nameInput phoneInput
        freshId).days = days ∧
    ∃ msg, (modalAddVolunteer days date eventId roleId existingVolunteers nameInput phoneInput
        freshId).error = some msg := by
  unfold modalAddVolunteer
  by_cases h1 : jsTrim nameInput = ""
  · simp [h1]
  · rw [if_neg h1]
    by_cases h2 : isValidPhone phoneInput
    · rw [if_neg (by simp [h2])]
      by_cases h3 : isDuplicateVolunteer existingVolunteers (jsTrim nameInput) phoneInput
      · simp [h3]
      · rcases h with h | h | h
        · exact absurd h h1
        · exact absurd h2 (by simp [h])
        · exact absurd h h3
    · simp [h2]

/-- Witness for C2: submitting a malformed seven-digit phone for the
concrete state is rejected and changes nothing. -/
theorem modalAddVolunteer_rejects_atomically_witness :
    (modalAddVolunteer lockedDays "2026-02-23" "e1" "role-4" [janeDoe] "Jane Doe" "555-1234"
        "v9").days = lockedDays ∧
    ∃ msg, (modalAddVolunteer lockedDays "2026-02-23" "e1" "role-4" [janeDoe] "Jane Doe"
        "555-1234" "v9").error = some msg :=
  modalAddVolunteer_rejects_atomically lockedDays "2026-02-23" "e1" "role-4" [janeDoe]
    "Jane Doe" "555-1234" "v9" (Or.inr (Or.inl (by decide)))

/-- Counterexample for C6: the input "555-123-4567" is not an
exactly-10-digit string, yet `formatPhone` does not return it unchanged — it
reformats it to "(555) 123-4567". -/
theorem formatPhone_reformats_nondigit_input :
    formatPhone "555-123-4567" = "(555) 123-4567" ∧
    ("(555) 123-4567" : String) ≠ "555-123-4567" ∧
    ¬("555-123-4567".toList.length = 10 ∧ ∀ c ∈ "555-123-4567".toList, c.isDigit = true) := by
  refine ⟨by decide, by decide, by decide⟩

/-- C6 (amended): `formatPhone` renders every exactly-10-digit input as
`(XXX) XXX-XXXX` using those digits in order, and returns an input unchanged
exactly when its digit count after stripping non-digits differs from ten
(rather than whenever the input itself is not a plain 10-digit string). -/
theorem formatPhone_formatting_spec :
    (∀ s : String, s.toList.length = 10 → (∀ c ∈ s.toList, c.isDigit = true) →
        formatPhone s = "(" ++ jsSlice s 0 3 ++ ") " ++ jsSlice s 3 6 ++ "-" ++ jsSliceFrom s 6)
  ∧ (∀ s : String, (stripNonDigits s).toList.length ≠ 10 → formatPhone s = s) := by
  constructor
  · intro s hlen hdig
    have hfil : s.toList.filter Char.isDigit = s.toList := List.filter_eq_self.mpr hdig
    have hs : stripNonDigits s = s := by
      cases s with
      | mk data => exact congrArg String.mk hfil
    unfold formatPhone
    rw [hs, if_pos hlen]
  · intro s hne
    unfold formatPhone
    rw [if_neg hne]

/-- Witness for C6 (amended): a plain 10-digit string is rendered from its
digit segments, and a 5-digit input passes through unchanged. -/
theorem formatPhone_formatting_spec_witness :
    formatPhone "5551234567" = "(" ++ jsSlice "5551234567" 0 3 ++ ") "
        ++ jsSlice "5551234567" 3 6 ++ "-" ++ jsSliceFrom "5551234567" 6 ∧
    formatPhone "12345" = "12345" :=
  ⟨formatPhone_formatting_spec.1 "5551234567" (by decide) (by decide),
   formatPhone_formatting_spec.2 "12345" (by decide)⟩

/-- Counterexample for C8: removing an id that is absent because the target
role key is missing from the event's roles record does NOT leave the state
unchanged — it materializes the key with an empty list. -/
theorem handleRemoveVolunteer_materializes_role_key :
    handleRemoveVolunteer lockedDays "2026-02-23" "e1" "role-1" "v1" ≠ lockedDays := by
  intro hEq
  have hobs := congrArg
    (fun d : Days => (d "2026-02-23").map fun ds => ds.events.map fun e =>
      (e.roles "role-1").isSome)
    hEq
  have hL : ((handleRemoveVolunteer lockedDays "2026-02-23" "e1" "role-1" "v1")
      "2026-02-23").map
      (fun ds => ds.events.map fun e => (e.roles "role-1").isSome) = some [true] := by decide
  have hR : (lockedDays "2026-02-23").map
      (fun ds => ds.events.map fun e => (e.roles "role-1").isSome) = some [false] := by decide
  beta_reduce at hobs
  rw [hL, hR] at hobs
  simp at hobs

/-- C8 (amended): `handleRemoveVolunteer` is idempotent (twice with the same
id equals once); removing an id absent from the target role's sequence is a
silent no-op whenever every matching event already binds the role key, and
removing on a never-materialized day is a no-op — but when the role key is
missing the operation materializes it (see the counterexample). -/
theorem handleRemoveVolunteer_idempotent_spec :
    (∀ (days : Days) (date eventId roleId volunteerId : String),
        handleRemoveVolunteer (handleRemoveVolunteer days date eventId roleId volunteerId)
            date eventId roleId volunteerId
          = handleRemoveVolunteer days date eventId roleId volunteerId)
  ∧ (∀ (days : Days) (date eventId roleId volunteerId : String) (ds : DayState),
        days date = some ds →
        (∀ e ∈ ds.events, e.id = eventId →
          ∃ l, e.roles roleId = some l ∧ ∀ v ∈ l, v.id ≠ volunteerId) →
        handleRemoveVolunteer days date eventId roleId volunteerId = days)
  ∧ (∀ (days : Days) (date eventId roleId volunteerId : String),
        days date = none →
        handleRemoveVolunteer days date eventId roleId volunteerId = days) :=
  ⟨handleRemoveVolunteer_idem, handleRemoveVolunteer_absent_noop,
   handleRemoveVolunteer_missing_day_noop⟩

/-- Witness for C8 (amended): removing the absent id "v2" from the bound
role key "role-4" of the concrete state changes nothing. -/
theorem handleRemoveVolunteer_idempotent_spec_witness :
    handleRemoveVolunteer daysWithRole "2026-02-23" "e1" "role-4" "v2" = daysWithRole := by
  apply handleRemoveVolunteer_idempotent_spec.2.1 daysWithRole "2026-02-23" "e1" "role-4" "v2"
    { events := [eventWithRole] } rfl
  intro e he _
  simp only [List.mem_singleton] at he
  subst he
  exact ⟨[janeDoe], rfl, by decide⟩

/-- C9: frame property of `handleToggleLock`: given a materialized selected
day containing the event id, every other day is unchanged, and on the
selected day the event list keeps its length and order, each event keeps its
id, details, createdAt and roles, the matching event's locked flag is
negated, and every non-matching event is entirely unchanged. -/
theorem handleToggleLock_frame (days : Days) (date eventId : String) (ds : DayState)
    (hd : days date = some ds) (_hmem : eventId ∈ ds.events.map (fun e => e.id)) :
    (∀ k, k ≠ date → handleToggleLock days date eventId k = days k) ∧
    ∃ ds', handleToggleLock days date eventId date = some ds' ∧
      List.Forall₂ (fun e e' =>
        e'.id = e.id ∧ e'.details = e.details ∧ e'.createdAt = e.createdAt ∧
        e'.roles = e.roles ∧
        e'.locked = (if e.id = eventId then !e.locked else e.locked))
        ds.events ds'.events := by
  constructor
  · intro k hk
    unfold handleToggleLock
    simp [hd, hk]
  · refine ⟨{ ds with events := ds.events.map (toggleLockEvent eventId) }, ?_, ?_⟩
    · unfold handleToggleLock
      simp [hd]
    · show List.Forall₂ _ ds.events (ds.events.map (toggleLockEvent eventId))
      rw [List.forall₂_map_right_iff]
      rw [List.forall₂_same]
      intro e _
      unfold toggleLockEvent
      by_cases hid : e.id = eventId
      · simp [hid]
      · simp [hid]

/-- Witness for C9: toggling the lock of the concrete event leaves an
unrelated day unchanged. -/
theorem handleToggleLock_frame_witness :
    handleToggleLock daysWithRole "2026-02-23" "e1" "2026-03-02" = daysWithRole "2026-03-02" :=
  (handleToggleLock_frame daysWithRole "2026-02-23" "e1" { events := [eventWithRole] }
    rfl (by decide)).1 "2026-03-02" (by decide)

end Cemetery
